import Mathlib

/-!
Verification of the chat-adapter layer of the LangGraph-MCP FastAPI service.

Shallow embedding of:
  * `src/app/api/routes.py`      — the `chat` (batch) and `chat_stream` (SSE) handlers
  * `src/app/agent/checkpointer.py` — `get_checkpointer`
together with the small pieces of library behaviour those handlers rely on
(Python `or` on optional strings, `str(uuid.uuid4())`, Starlette's
`HTTPException.__str__`).

The external agent graph (`create_agent_graph(...).ainvoke` /
`stream_agent_response`) is a black-box collaborator and is modelled as a
function parameter: batch invocation returns either a final message list or
raises (an `Except String`), streaming produces a finite prefix of events and
then either finishes cleanly or raises.
-/

/-- A tool-call entry as it appears on a message returned by the external
graph: a dict carrying at least `name`, `args` and `id` keys, each of which
`dict.get` may report as absent (`none`). -/
structure RawToolCall where
  name : Option String
  args : Option String
  id : Option String
  deriving Repr, DecidableEq

/-- The record the batch handler builds from a raw tool call:
`{"name": tool_call.get("name"), "args": tool_call.get("args")}` — only the
`name` and `args` keys are kept. -/
structure ToolCallRecord where
  name : Option String
  args : Option String
  deriving Repr, DecidableEq

/-- A message in the agent result. `content` models `msg.content`;
`tool_calls = none` models a message object without a `tool_calls`
attribute (`hasattr(msg, "tool_calls")` false), `some tcs` an object whose
`tool_calls` attribute holds the list `tcs`. -/
structure Msg where
  content : String
  tool_calls : Option (List RawToolCall)
  deriving Repr, DecidableEq

/-- `HumanMessage(content=...)` from langchain-core: a plain message carrying
the given text and no `tool_calls` attribute. -/
def HumanMessage (content : String) : Msg :=
  { content := content, tool_calls := none }

/-- Modelled from the spec: `app/api/schemas.py` is not in the tree.  Per the
spec the batch request body is `{message: string (required), session_id:
string (optional)}` with no further validation. -/
structure ChatRequest where
  message : String
  session_id : Option String
  deriving Repr, DecidableEq

/-- Modelled from the spec: `app/api/schemas.py` is not in the tree.  Per the
spec the batch response is `{response: string, session_id: string,
tool_calls: [...] | absent}`; `tool_calls = none` models the field being
absent from the response. -/
structure ChatResponse where
  response : String
  session_id : String
  tool_calls : Option (List ToolCallRecord)
  deriving Repr, DecidableEq

/-- The initial state dict passed to the agent graph:
`{"messages": [HumanMessage(...)], "session_id": session_id}`. -/
structure AgentState where
  messages : List Msg
  session_id : String
  deriving Repr, DecidableEq

/-- The thread configuration passed to the agent graph:
`{"configurable": {"thread_id": session_id}}`. -/
structure ThreadConfig where
  thread_id : String
  deriving Repr, DecidableEq

/-- The exceptions raised inside the `chat` handler's `try` block:
`HTTPException(status_code, detail)` raised by the handler itself, or any
other exception (modelled by its `str(...)` rendering) propagating out of the
external graph call. -/
inductive Exc where
  | httpException (status : Nat) (detail : String)
  | generic (message : String)
  deriving Repr, DecidableEq

/-- `str(e)` for a caught exception.  Starlette's `HTTPException.__str__`
returns `f"{self.status_code}: {self.detail}"`; any other exception renders
as its own message. -/
def excStr : Exc → String
  | .httpException status detail => toString status ++ ": " ++ detail
  | .generic message => message

/-- What the caller of `POST /chat` observes: a success body, or an HTTP
error response `{detail: ...}` with a status code. -/
inductive ChatOutcome where
  | ok (resp : ChatResponse)
  | httpError (status : Nat) (detail : String)
  deriving Repr, DecidableEq

/-- Python `x or y` specialised to `x : Optional[str]`: both `None` and the
empty string are falsy, everything else is returned unchanged. -/
def pyOrStr : Option String → String → String
  | none, fresh => fresh
  | some s, fresh => if s = "" then fresh else s

/-- Lower-case hex digit for a nibble, as Python's `%x` formatting uses. -/
def hexChar (n : Nat) : Char :=
  if n < 10 then Char.ofNat (48 + n) else Char.ofNat (87 + n)

/-- `w` lower-case hex digits of `n`, zero-padded, most significant first. -/
def hexChars : Nat → Nat → List Char
  | _, 0 => []
  | n, w + 1 => hexChars (n / 16) w ++ [hexChar (n % 16)]

/-- `uuid.uuid4()` as a 128-bit integer: 128 random bits (the argument,
reduced mod 2^128) with the version nibble forced to 4 and the variant bits
forced to `10`. -/
def uuid4Int (r : Nat) : Nat :=
  let n := r % 2 ^ 128
  let n := n - n / 2 ^ 76 % 16 * 2 ^ 76 + 4 * 2 ^ 76
  let n := n - n / 2 ^ 62 % 4 * 2 ^ 62 + 2 * 2 ^ 62
  n

/-- The characters of `str(uuid.uuid4())`: 32 hex digits in 8-4-4-4-12
groups separated by dashes. -/
def uuidChars (r : Nat) : List Char :=
  let n := uuid4Int r
  hexChars (n / 2 ^ 96) 8 ++ ['-'] ++ hexChars (n / 2 ^ 80 % 2 ^ 16) 4 ++ ['-'] ++
    hexChars (n / 2 ^ 64 % 2 ^ 16) 4 ++ ['-'] ++ hexChars (n / 2 ^ 48 % 2 ^ 16) 4 ++ ['-'] ++
    hexChars (n % 2 ^ 48) 12

/-- `str(uuid.uuid4())`, with the randomness source made explicit as a
natural-number argument. -/
def uuid4Str (r : Nat) : String :=
  String.mk (uuidChars r)

/-- `session_id = chat_request.session_id or str(uuid.uuid4())` in the batch
handler (routes.py line 63). -/
def chat_session_id (req : ChatRequest) (r : Nat) : String :=
  pyOrStr req.session_id (uuid4Str r)

/-- The `initial_state` dict built by the batch handler (routes.py
lines 66-69). -/
def chat_initial_state (req : ChatRequest) (r : Nat) : AgentState :=
  { messages := [HumanMessage req.message], session_id := chat_session_id req r }

/-- The `config` dict built by the batch handler (routes.py line 72). -/
def chat_config (req : ChatRequest) (r : Nat) : ThreadConfig :=
  { thread_id := chat_session_id req r }

/-- The tool-call records contributed by one message (routes.py lines 85-91):
skipped entirely when the message has no `tool_calls` attribute or the
attribute is falsy (an empty list); otherwise each entry is projected to its
`name` and `args`. -/
def extractToolCalls (m : Msg) : List ToolCallRecord :=
  match m.tool_calls with
  | none => []
  | some tcs =>
    if tcs.isEmpty then []
    else tcs.map fun tc => { name := tc.name, args := tc.args }

/-- The flat `tool_calls` list accumulated by the `for msg in messages` loop
(routes.py lines 84-91): per-message records concatenated in message order. -/
def collectToolCalls (msgs : List Msg) : List ToolCallRecord :=
  (msgs.map extractToolCalls).flatten

/-- The body of the batch handler's `try` block after the graph call
(routes.py lines 75-97), applied to the result of
`agent_graph.ainvoke(initial_state, config)`: a graph exception propagates;
an empty message list raises `HTTPException(500, "No response from agent")`;
otherwise the response is built from the last message's content and the
collected tool calls, with `tool_calls if tool_calls else None`. -/
def chatTry (graphResult : Except String (List Msg)) (sid : String) :
    Except Exc ChatResponse :=
  match graphResult with
  | .error e => .error (.generic e)
  | .ok messages =>
    if h : messages = [] then
      .error (.httpException 500 "No response from agent")
    else
      let final_message := messages.getLast h
      let tool_calls := collectToolCalls messages
      .ok { response := final_message.content,
            session_id := sid,
            tool_calls := if tool_calls.isEmpty then none else some tool_calls }

/-- The `chat` handler (routes.py lines 44-101).  The external graph's batch
invocation is the function argument `graph`; `r` is the randomness consumed
by `uuid.uuid4()`.  Any exception escaping the `try` block is caught by
`except Exception as e` and re-raised as `HTTPException(500, str(e))`, which
the framework surfaces as an HTTP 500 with that detail. -/
def chat (graph : AgentState → ThreadConfig → Except String (List Msg))
    (req : ChatRequest) (r : Nat) : ChatOutcome :=
  match chatTry (graph (chat_initial_state req r) (chat_config req r))
      (chat_session_id req r) with
  | .ok resp => .ok resp
  | .error e => .httpError 500 (excStr e)

/-- `sid = session_id or str(uuid.uuid4())` in the streaming handler's
`event_generator` (routes.py line 124). -/
def stream_session_id (session_id : Option String) (r : Nat) : String :=
  pyOrStr session_id (uuid4Str r)

/-- The `initial_state` dict built by `event_generator` (routes.py
lines 127-130). -/
def stream_initial_state (message : String) (session_id : Option String)
    (r : Nat) : AgentState :=
  { messages := [HumanMessage message], session_id := stream_session_id session_id r }

/-- The `config` dict built by `event_generator` (routes.py line 133). -/
def stream_config (session_id : Option String) (r : Nat) : ThreadConfig :=
  { thread_id := stream_session_id session_id r }

/-- The synthetic terminal SSE frame `f"event: error\ndata: {str(e)}\n\n"`
yielded by the streaming handler's `except` block (routes.py line 140). -/
def errorFrame (e : String) : String :=
  "event: error\ndata: " ++ e ++ "\n\n"

/-- `event_generator` of the streaming handler (routes.py lines 118-141).
The black-box producer `stream_agent_response` yields a finite list of event
frames and then either finishes cleanly (`none`) or raises (`some e`, the
exception's text); an exception anywhere in the `try` block — including
before the first event — is caught and answered with exactly one terminal
error frame, after which the generator ends. -/
def event_generator
    (stream_agent_response : AgentState → ThreadConfig → List String × Option String)
    (message : String) (session_id : Option String) (r : Nat) : List String :=
  match stream_agent_response (stream_initial_state message session_id r)
      (stream_config session_id r) with
  | (events, none) => events
  | (events, some e) => events ++ [errorFrame e]

/-- `get_checkpointer` (checkpointer.py lines 14-25): always returns `None`
(checkpointing disabled).  `C` is the type of real checkpointer objects
(`BaseCheckpointSaver`), left abstract. -/
def get_checkpointer (C : Type) : Option C :=
  none

/-- `get_agent_graph` (routes.py lines 27-35) as a transition on the
module-level `_checkpointer` variable: when the global is `None` it is
(re)assigned from `get_checkpointer()`, then `create_agent_graph` is called
with the global's value.  Returns (new global value, checkpointer passed to
`create_agent_graph`). -/
def get_agent_graph (C : Type) (s : Option C) : Option C × Option C :=
  match s with
  | none => (get_checkpointer C, get_checkpointer C)
  | some c => (some c, some c)

/-- The module-level `_checkpointer` global after `n` calls to
`get_agent_graph`, starting from its initial value `None` (routes.py
line 24). -/
def checkpointerState (C : Type) : Nat → Option C
  | 0 => none
  | n + 1 => (get_agent_graph C (checkpointerState C n)).1

theorem hexChars_length (n w : Nat) : (hexChars n w).length = w := by
  induction w generalizing n with
  | zero => rfl
  | succ w ih => simp [hexChars, ih]

theorem uuidChars_length (r : Nat) : (uuidChars r).length = 36 := by
  simp [uuidChars, hexChars_length]

theorem uuid4Str_ne_empty (r : Nat) : uuid4Str r ≠ "" := by
  intro h
  have hd : uuidChars r = [] := congrArg String.data h
  have := uuidChars_length r
  rw [hd] at this
  simp at this

theorem chatTry_ok_iff (graphResult : Except String (List Msg)) (sid : String)
    (messages : List Msg) (hgr : graphResult = .ok messages) (hne : messages ≠ []) :
    chatTry graphResult sid =
      .ok { response := (messages.getLast hne).content,
            session_id := sid,
            tool_calls := if (collectToolCalls messages).isEmpty then none
                          else some (collectToolCalls messages) } := by
  subst hgr
  simp [chatTry, hne]

theorem chat_ok_spec (graph : AgentState → ThreadConfig → Except String (List Msg))
    (req : ChatRequest) (r : Nat) (messages : List Msg)
    (h : graph (chat_initial_state req r) (chat_config req r) = .ok messages)
    (hne : messages ≠ []) :
    chat graph req r =
      .ok { response := (messages.getLast hne).content,
            session_id := chat_session_id req r,
            tool_calls := if (collectToolCalls messages).isEmpty then none
                          else some (collectToolCalls messages) } := by
  unfold chat
  rw [chatTry_ok_iff _ _ messages h hne]

theorem chat_empty_spec (graph : AgentState → ThreadConfig → Except String (List Msg))
    (req : ChatRequest) (r : Nat)
    (h : graph (chat_initial_state req r) (chat_config req r) = .ok []) :
    chat graph req r = .httpError 500 (excStr (.httpException 500 "No response from agent")) := by
  unfold chat
  rw [h]
  rfl

theorem chat_ok_session_id (graph : AgentState → ThreadConfig → Except String (List Msg))
    (req : ChatRequest) (r : Nat) (resp : ChatResponse)
    (h : chat graph req r = .ok resp) : resp.session_id = chat_session_id req r := by
  unfold chat at h
  rcases hgr : graph (chat_initial_state req r) (chat_config req r) with e | messages
  · rw [hgr] at h
    simp [chatTry] at h
  · rcases hmsgs : messages with _ | ⟨m, ms⟩
    · rw [hgr, hmsgs] at h
      simp [chatTry] at h
    · rw [hgr] at h
      rw [chatTry_ok_iff _ _ messages (by rw [hmsgs]) (by simp [hmsgs])] at h
      simp at h
      rw [← h]

theorem chat_outcome_cases (graph : AgentState → ThreadConfig → Except String (List Msg))
    (req : ChatRequest) (r : Nat) :
    (∃ resp, chat graph req r = .ok resp) ∨
    (∃ d, chat graph req r = .httpError 500 d) := by
  unfold chat
  cases hC : chatTry (graph (chat_initial_state req r) (chat_config req r))
      (chat_session_id req r) with
  | ok resp =>
    left
    exact ⟨resp, by simp only [hC]⟩
  | error e =>
    right
    exact ⟨excStr e, by simp only [hC]⟩

/-- A reply message with no tool calls, used as a concrete agent result. -/
def msgReply : Msg := { content := "reply", tool_calls := none }

/-- A concrete agent graph returning a single plain reply message. -/
def gReply : AgentState → ThreadConfig → Except String (List Msg) :=
  fun _ _ => .ok [msgReply]

/-- A concrete agent graph returning an empty message list. -/
def gEmpty : AgentState → ThreadConfig → Except String (List Msg) :=
  fun _ _ => .ok []

/-- A concrete earlier message carrying tool call C. -/
def msgC : Msg :=
  { content := "m1", tool_calls := some [{ name := some "C", args := some "argsC", id := none }] }

/-- A concrete final message carrying tool calls A and B. -/
def msgAB : Msg :=
  { content := "final",
    tool_calls := some [{ name := some "A", args := some "argsA", id := none },
                        { name := some "B", args := some "argsB", id := none }] }

/-- A concrete agent graph returning a message with tool call C followed by a
final message with tool calls A and B. -/
def gTools : AgentState → ThreadConfig → Except String (List Msg) :=
  fun _ _ => .ok [msgC, msgAB]

/-- C1: Session resolution — for every chat (batch or streaming) request, a
supplied non-empty session id is returned unchanged as the response's
`session_id` (batch) and used as the stream's session id, while an absent or
empty one is replaced by a freshly generated uuid4 string, which is never
empty. -/
theorem chat_session_resolution
    (graph : AgentState → ThreadConfig → Except String (List Msg))
    (m : String) (r : Nat) :
    (∀ s resp, s ≠ "" →
        chat graph { message := m, session_id := some s } r = .ok resp →
        resp.session_id = s) ∧
    (∀ sid resp, (sid = none ∨ sid = some "") →
        chat graph { message := m, session_id := sid } r = .ok resp →
        resp.session_id = uuid4Str r ∧ uuid4Str r ≠ "") ∧
    (∀ s, s ≠ "" → stream_session_id (some s) r = s) ∧
    (∀ sid, (sid = none ∨ sid = some "") →
        stream_session_id sid r = uuid4Str r ∧ uuid4Str r ≠ "") := by
  refine ⟨?_, ?_, ?_, ?_⟩
  · intro s resp hs h
    have hsid := chat_ok_session_id _ _ _ _ h
    simpa [chat_session_id, pyOrStr, hs] using hsid
  · intro sid resp hsid h
    have hid := chat_ok_session_id _ _ _ _ h
    rcases hsid with h1 | h1 <;> subst h1 <;>
      simp only [chat_session_id, pyOrStr, if_pos rfl] at hid <;>
      exact ⟨hid, uuid4Str_ne_empty r⟩
  · intro s hs
    simp [stream_session_id, pyOrStr, hs]
  · intro sid hsid
    rcases hsid with h1 | h1 <;> subst h1 <;>
      exact ⟨by simp [stream_session_id, pyOrStr], uuid4Str_ne_empty r⟩

theorem chat_session_resolution_witness :
    ({ response := "reply", session_id := "abc", tool_calls := none } :
        ChatResponse).session_id = "abc" ∧
    (({ response := "reply", session_id := uuid4Str 0, tool_calls := none } :
        ChatResponse).session_id = uuid4Str 0 ∧ uuid4Str 0 ≠ "") ∧
    stream_session_id (some "xyz") 0 = "xyz" ∧
    (stream_session_id none 0 = uuid4Str 0 ∧ uuid4Str 0 ≠ "") := by
  refine ⟨?_, ?_, ?_, ?_⟩
  · exact (chat_session_resolution gReply "hi" 0).1 "abc" _ (by decide) rfl
  · exact (chat_session_resolution gReply "hi" 0).2.1 none _ (Or.inl rfl) rfl
  · exact (chat_session_resolution gReply "hi" 0).2.2.1 "xyz" (by decide)
  · exact (chat_session_resolution gReply "hi" 0).2.2.2 none (Or.inl rfl)

/-- C2: Streaming failure semantics — if producing an event raises after the
prefix `events` (including the case `events = []`, i.e. before the first
event), the generator yields exactly the frames of `events` followed by one
final `event: error` frame carrying the error's text, and nothing after it. -/
theorem stream_error_frame_semantics
    (stream_agent_response : AgentState → ThreadConfig → List String × Option String)
    (message : String) (session_id : Option String) (r : Nat)
    (events : List String) (e : String)
    (h : stream_agent_response (stream_initial_state message session_id r)
          (stream_config session_id r) = (events, some e)) :
    event_generator stream_agent_response message session_id r =
      events ++ ["event: error\ndata: " ++ e ++ "\n\n"] := by
  unfold event_generator
  rw [h]
  rfl

theorem stream_error_frame_semantics_witness :
    event_generator (fun _ _ => (["data: e1\n\n"], some "boom")) "hi" none 0 =
      ["data: e1\n\n", "event: error\ndata: boom\n\n"] := by
  have h := stream_error_frame_semantics (fun _ _ => (["data: e1\n\n"], some "boom"))
      "hi" none 0 ["data: e1\n\n"] "boom" rfl
  simpa using h

/-- C6: Streaming order preservation — when the external event sequence
completes without failure, the generator yields exactly those events, in the
producer's order, with nothing added, dropped, duplicated or reordered. -/
theorem stream_order_preservation
    (stream_agent_response : AgentState → ThreadConfig → List String × Option String)
    (message : String) (session_id : Option String) (r : Nat)
    (events : List String)
    (h : stream_agent_response (stream_initial_state message session_id r)
          (stream_config session_id r) = (events, none)) :
    event_generator stream_agent_response message session_id r = events := by
  unfold event_generator
  rw [h]

theorem stream_order_preservation_witness :
    event_generator (fun _ _ => (["data: e1\n\n", "data: e2\n\n", "data: e3\n\n"], none))
        "hi" (some "sess") 0 =
      ["data: e1\n\n", "data: e2\n\n", "data: e3\n\n"] :=
  stream_order_preservation (fun _ _ => (["data: e1\n\n", "data: e2\n\n", "data: e3\n\n"], none))
    "hi" (some "sess") 0 ["data: e1\n\n", "data: e2\n\n", "data: e3\n\n"] rfl

/-- C3: EmptyResponse — when the agent graph returns a result with no
messages, the batch handler surfaces HTTP 500 to the caller and produces no
success response body. -/
theorem chat_empty_result_500
    (graph : AgentState → ThreadConfig → Except String (List Msg))
    (req : ChatRequest) (r : Nat)
    (h : graph (chat_initial_state req r) (chat_config req r) = .ok []) :
    (∃ d, chat graph req r = .httpError 500 d) ∧
    ∀ resp, chat graph req r ≠ .ok resp := by
  have hc := chat_empty_spec graph req r h
  refine ⟨⟨_, hc⟩, ?_⟩
  intro resp hok
  rw [hc] at hok
  exact ChatOutcome.noConfusion hok

theorem chat_empty_result_500_witness :
    (∃ d, chat gEmpty { message := "hi", session_id := some "s" } 0 = .httpError 500 d) ∧
    chat gEmpty { message := "hi", session_id := some "s" } 0 ≠
      .ok { response := "reply", session_id := "s", tool_calls := none } := by
  have h := chat_empty_result_500 gEmpty { message := "hi", session_id := some "s" } 0 rfl
  exact ⟨h.1, h.2 _⟩

/-- C10: the HTTP 500 raised for an empty agent result inside the `try` block
is intercepted by the handler's generic `except Exception` and re-raised, so
the surfaced detail is the `str(...)` rendering of the caught
`HTTPException` — "500: No response from agent" — rather than the original
detail text "No response from agent". -/
theorem chat_empty_detail_rewrapped
    (graph : AgentState → ThreadConfig → Except String (List Msg))
    (req : ChatRequest) (r : Nat)
    (h : graph (chat_initial_state req r) (chat_config req r) = .ok []) :
    chat graph req r = .httpError 500 "500: No response from agent" ∧
    excStr (.httpException 500 "No response from agent") = "500: No response from agent" ∧
    "500: No response from agent" ≠ "No response from agent" := by
  have hc := chat_empty_spec graph req r h
  refine ⟨?_, by decide, by decide⟩
  rw [hc]
  rfl

theorem chat_empty_detail_rewrapped_witness :
    chat gEmpty { message := "hi", session_id := some "t" } 0 =
      .httpError 500 "500: No response from agent" :=
  (chat_empty_detail_rewrapped gEmpty { message := "hi", session_id := some "t" } 0 rfl).1

/-- C4: Tool-call aggregation — for a non-empty agent result, the batch
response's text is the last message's content and its tool-call list is the
flat, in-order concatenation of every tool-invocation record found scanning
the messages in their original sequence (`collectToolCalls`); an absent
`tool_calls` field stands for the empty collection. -/
theorem chat_tool_call_aggregation
    (graph : AgentState → ThreadConfig → Except String (List Msg))
    (req : ChatRequest) (r : Nat) (messages : List Msg)
    (h : graph (chat_initial_state req r) (chat_config req r) = .ok messages)
    (hne : messages ≠ []) :
    ∃ resp, chat graph req r = .ok resp ∧
      resp.response = (messages.getLast hne).content ∧
      resp.tool_calls.getD [] = collectToolCalls messages := by
  have hc := chat_ok_spec graph req r messages h hne
  refine ⟨_, hc, rfl, ?_⟩
  by_cases hz : (collectToolCalls messages).isEmpty
  · simp only [hz, if_pos]
    simp [List.isEmpty_iff.mp hz]
  · simp only [hz, if_neg, Bool.false_eq_true, not_false_eq_true]
    rfl

theorem chat_tool_call_aggregation_witness :
    ∃ resp, chat gTools { message := "hi", session_id := some "u" } 0 = .ok resp ∧
      resp.response = ([msgC, msgAB].getLast (by simp)).content ∧
      resp.tool_calls.getD [] = collectToolCalls [msgC, msgAB] :=
  chat_tool_call_aggregation gTools { message := "hi", session_id := some "u" } 0
    [msgC, msgAB] rfl (by simp)

/-- C5: Tool-call omission — when zero tool-invocation records are found
across all messages of a non-empty agent result, the batch response carries
`tool_calls = none` (the field is absent), never an empty list. -/
theorem chat_tool_call_omission
    (graph : AgentState → ThreadConfig → Except String (List Msg))
    (req : ChatRequest) (r : Nat) (messages : List Msg)
    (h : graph (chat_initial_state req r) (chat_config req r) = .ok messages)
    (hne : messages ≠ []) (hz : collectToolCalls messages = []) :
    ∃ resp, chat graph req r = .ok resp ∧
      resp.tool_calls = none ∧ resp.tool_calls ≠ some [] := by
  have hc := chat_ok_spec graph req r messages h hne
  refine ⟨_, hc, ?_, ?_⟩
  · simp [hz]
  · simp [hz]

theorem chat_tool_call_omission_witness :
    ∃ resp, chat gReply { message := "hi", session_id := some "v" } 0 = .ok resp ∧
      resp.tool_calls = none ∧ resp.tool_calls ≠ some [] :=
  chat_tool_call_omission gReply { message := "hi", session_id := some "v" } 0
    [msgReply] rfl (by simp) rfl

/-- C7: Session-identifier coherence — in both handlers the session id placed
in the initial state payload is identical to the thread id placed in the
thread configuration (both are the one resolved session id of the request),
and a successful batch response echoes that same identifier. -/
theorem session_id_coherence (req : ChatRequest) (message : String)
    (session_id : Option String) (r : Nat) :
    (chat_initial_state req r).session_id = (chat_config req r).thread_id ∧
    (chat_initial_state req r).session_id = chat_session_id req r ∧
    (stream_initial_state message session_id r).session_id =
      (stream_config session_id r).thread_id ∧
    (stream_initial_state message session_id r).session_id =
      stream_session_id session_id r ∧
    (∀ graph resp, chat graph req r = ChatOutcome.ok resp →
      resp.session_id = (chat_config req r).thread_id) := by
  refine ⟨rfl, rfl, rfl, rfl, ?_⟩
  intro graph resp h
  exact chat_ok_session_id graph req r resp h

theorem session_id_coherence_witness :
    ({ response := "reply", session_id := "w", tool_calls := none } :
        ChatResponse).session_id =
      (chat_config { message := "hi", session_id := some "w" } 0).thread_id :=
  (session_id_coherence { message := "hi", session_id := some "w" } "hi" none 0).2.2.2.2
    gReply _ rfl

/-- C8: No-op persistence — the module-level checkpointer global starts as
`None`, `get_checkpointer` always returns `None`, and therefore after any
number of `get_agent_graph` calls the checkpointer passed to the agent graph
is always the no-op/None value. -/
theorem noop_checkpointer_invariant (C : Type) (n : Nat) :
    get_checkpointer C = none ∧
    checkpointerState C n = none ∧
    (get_agent_graph C (checkpointerState C n)).2 = none := by
  have hstate : ∀ m, checkpointerState C m = none := by
    intro m
    induction m with
    | zero => rfl
    | succ m ih => simp [checkpointerState, ih, get_agent_graph, get_checkpointer]
  exact ⟨rfl, hstate n, by rw [hstate n]; rfl⟩

/-- C9: Empty-message acceptance — with an empty message the batch handler
performs no non-emptiness validation: it builds the initial state containing
the empty human message and proceeds to invoke the agent graph; its outcome
is either a success body or an HTTP 500 (never a 400), and a well-formed
graph result still yields a success response. -/
theorem empty_message_accepted
    (graph : AgentState → ThreadConfig → Except String (List Msg))
    (session_id : Option String) (r : Nat) :
    (chat_initial_state { message := "", session_id := session_id } r).messages =
      [HumanMessage ""] ∧
    ((∃ resp, chat graph { message := "", session_id := session_id } r = .ok resp) ∨
      (∃ d, chat graph { message := "", session_id := session_id } r = .httpError 500 d)) ∧
    (∀ messages, messages ≠ [] →
      graph (chat_initial_state { message := "", session_id := session_id } r)
          (chat_config { message := "", session_id := session_id } r) = .ok messages →
      ∃ resp, chat graph { message := "", session_id := session_id } r = .ok resp) := by
  refine ⟨rfl, chat_outcome_cases graph _ r, ?_⟩
  intro messages hne h
  exact ⟨_, chat_ok_spec graph _ r messages h hne⟩

theorem empty_message_accepted_witness :
    (chat_initial_state { message := "", session_id := some "x" } 0).messages =
      [HumanMessage ""] ∧
    ∃ resp, chat gReply { message := "", session_id := some "x" } 0 = .ok resp :=
  ⟨(empty_message_accepted gReply (some "x") 0).1,
   (empty_message_accepted gReply (some "x") 0).2.2 [msgReply] (by simp) rfl⟩
